import Mathlib

/-!
Verification development for the MindChat service worker
(`src/public/sw.js`).  The request pipeline of the worker, caching
strategies, outbox replay, activation garbage collection, crisis
trigger and control commands are embedded shallowly: JavaScript
strings become `String`, the Cache Storage partitions become
association lists from URL to response snapshot, the network becomes
an explicit `Option Response` (`none` models a rejected fetch), and
IndexedDB stores become Lean lists.
-/

namespace MindChat

/-! ## String helpers mirroring the JavaScript string predicates -/

/-- Membership of a contiguous sublist, mirroring JS `String.includes`
on the underlying character lists. -/
def containsSub [BEq α] (needle : List α) : List α → Bool
  | [] => needle.isEmpty
  | a :: rest => needle.isPrefixOf (a :: rest) || containsSub needle rest

/-- JS `p.endsWith a`. -/
def pathEndsWith (p a : String) : Bool := a.data.isSuffixOf p.data

/-- JS `p.startsWith a`. -/
def pathStartsWith (p a : String) : Bool := a.data.isPrefixOf p.data

/-- JS `p.includes a`. -/
def pathIncludes (p a : String) : Bool := containsSub a.data p.data

/-! ## Constants from the top of sw.js -/

def STATIC_CACHE : String := "mindchat-static-v1"
def DYNAMIC_CACHE : String := "mindchat-dynamic-v1"
def AUDIO_CACHE : String := "mindchat-audio-v1"

/-- `STATIC_ASSETS` — the critical assets cached at install. -/
def STATIC_ASSETS : List String :=
  ["/", "/index.html", "/manifest.json",
   "/icons/icon-192x192.png", "/icons/icon-512x512.png"]

/-- First classifier test: `STATIC_ASSETS.some (asset =>
url.pathname.endsWith(asset))` (sw.js line 101). -/
def isStaticAssetPath (p : String) : Bool :=
  STATIC_ASSETS.any (fun a => pathEndsWith p a)

/-- Second classifier test: `url.pathname.includes("/audio/")`
(sw.js line 106). -/
def isAudioPath (p : String) : Bool := pathIncludes p "/audio/"

/-- Third classifier test: `url.pathname.startsWith("/api/")`
(sw.js line 111). -/
def isApiPath (p : String) : Bool := pathStartsWith p "/api/"

/-! ## Responses and cache partitions -/

/-- A response snapshot: HTTP status code and body. -/
structure Response where
  status : Nat
  body : String
deriving DecidableEq, Repr

/-- JS `response.ok`: status in the 2xx range. -/
def responseOk (r : Response) : Bool := 200 ≤ r.status && r.status < 300

/-- One cache partition: request fingerprint (the GET URL) mapped to a
stored snapshot, newest binding first. -/
abbrev Cache := List (String × Response)

instance : DecidableEq (Except Unit Response) := fun a b =>
  match a, b with
  | .ok x, .ok y =>
    if h : x = y then .isTrue (by rw [h])
    else .isFalse (by intro he; cases he; exact h rfl)
  | .error _, .error _ => .isTrue (by rfl)
  | .ok _, .error _ => .isFalse (by intro he; cases he)
  | .error _, .ok _ => .isFalse (by intro he; cases he)

/-- `cache.match(request)`. -/
def cacheMatch (c : Cache) (u : String) : Option Response :=
  (List.find? (fun p => p.1 == u) c).map (fun p => p.2)

/-- `cache.put(request, response)` — last write wins for a fingerprint. -/
def cachePut (c : Cache) (u : String) (r : Response) : Cache :=
  (u, r) :: List.filter (fun p => p.1 != u) c

theorem cacheMatch_cachePut (c : Cache) (u : String) (r : Response) :
    cacheMatch (cachePut c u r) u = some r := by
  simp [cacheMatch, cachePut, List.find?]

/-! ## The three caching strategies (sw.js lines 148–209)

The network is modelled by `net : Option Response`: `some r` means the
fetch resolves with response `r` (whatever its status), `none` means
the fetch rejects.  The outcome of a strategy records the response returned
to the caller (`Except Unit Response`, where `.error ()` is a
propagated failure), the final partition contents once every fetch
issued by the call has settled, the number of network fetches issued,
and whether the caller had to wait for the network before receiving
its response. -/

structure StratResult where
  response : Except Unit Response
  cache : Cache
  fetches : Nat
  awaitedNetwork : Bool
deriving DecidableEq

/-- `cacheFirstStrategy` (sw.js lines 148–161): serve the stored
snapshot when present, otherwise fetch, store and return. -/
def cacheFirstStrategy (net : Option Response) (c : Cache) (u : String) :
    StratResult :=
  match cacheMatch c u with
  | some r => ⟨.ok r, c, 0, false⟩
  | none =>
    match net with
    | some r => ⟨.ok r, cachePut c u r, 1, true⟩
    | none => ⟨.error (), c, 1, true⟩

/-- `networkFirstStrategy` (sw.js lines 164–182): fetch, store and
return on resolution; on rejection fall back to the stored snapshot,
else propagate the failure. -/
def networkFirstStrategy (net : Option Response) (c : Cache) (u : String) :
    StratResult :=
  match net with
  | some r => ⟨.ok r, cachePut c u r, 1, true⟩
  | none =>
    match cacheMatch c u with
    | some r => ⟨.ok r, c, 1, true⟩
    | none => ⟨.error (), c, 1, true⟩

/-- `staleWhileRevalidateStrategy` (sw.js lines 185–209): always issue
a background fetch whose resolution overwrites the partition; return
the stored snapshot immediately when present, otherwise await the
fetch, propagating failure when it rejects. -/
def staleWhileRevalidateStrategy (net : Option Response) (c : Cache)
    (u : String) : StratResult :=
  let settled := match net with
    | some r => cachePut c u r
    | none => c
  match cacheMatch c u with
  | some r => ⟨.ok r, settled, 1, false⟩
  | none =>
    match net with
    | some r => ⟨.ok r, settled, 1, true⟩
    | none => ⟨.error (), settled, 1, true⟩

/-! ## The GET pipeline (sw.js lines 85–122 and 212–250) -/

/-- The strategy picked by the classifier. -/
inductive Strategy where
  | cacheFirst
  | networkFirst
  | staleWhileRevalidate
deriving DecidableEq, Repr

/-- The partition a strategy runs against. -/
inductive Partition where
  | static
  | dynamic
  | audio
deriving DecidableEq, Repr

/-- The three partitions of Cache Storage the worker uses. -/
structure CacheState where
  static : Cache
  dynamic : Cache
  audio : Cache
deriving DecidableEq

/-- A GET request: its pathname and its `Accept` header (`none` when
the header is absent). -/
structure GetRequest where
  path : String
  accept : Option String
deriving DecidableEq

/-- JS `request.headers.get("Accept")?.includes(s)`. -/
def acceptIncludes (a : Option String) (s : String) : Bool :=
  match a with
  | some v => pathIncludes v s
  | none => false

/-- Body of the JSON offline error envelope built at sw.js line 226. -/
def offlineErrorBody : String :=
  "\x7b\"error\":\"Offline\",\"message\":\"This feature requires internet connection\",\"offline\":true\x7d"

/-- The inline SVG placeholder returned for image requests
(sw.js lines 239–242). -/
def svgPlaceholder : String :=
  "<svg xmlns=\"http://www.w3.org/2000/svg\" width=\"200\" height=\"200\" viewBox=\"0 0 200 200\">\n      <rect width=\"200\" height=\"200\" fill=\"#f0f0f0\"/>\n      <text x=\"100\" y=\"100\" text-anchor=\"middle\" fill=\"#666\" font-size=\"14\">Offline</text>\n    </svg>"

/-- `getFallbackResponse` (sw.js lines 212–250): the synthetic
response produced when a strategy throws. -/
def getFallbackResponse (req : GetRequest) (staticCache : Cache) : Response :=
  if acceptIncludes req.accept "text/html" then
    match cacheMatch staticCache "/" with
    | some r => r
    | none => ⟨503, "Offline - Please check your connection"⟩
  else if isApiPath req.path then ⟨503, offlineErrorBody⟩
  else if acceptIncludes req.accept "image/" then ⟨200, svgPlaceholder⟩
  else ⟨503, "Resource unavailable offline"⟩

/-- Outcome of `handleGetRequest`: the response actually delivered
(after the catch-all fallback), the partitions once all fetches have
settled, which strategy/partition the classifier chose, how many
fetches were issued, and whether the caller waited on the network. -/
structure GetResult where
  response : Response
  state : CacheState
  chosen : Strategy × Partition
  fetches : Nat
  awaitedNetwork : Bool
deriving DecidableEq

/-- `handleGetRequest` (sw.js lines 98–122): classifier precedence
static → audio → API → default, each branch running its strategy, with
any propagated failure converted by `getFallbackResponse`. -/
def handleGetRequest (net : Option Response) (st : CacheState)
    (req : GetRequest) : GetResult :=
  if isStaticAssetPath req.path then
    let r := cacheFirstStrategy net st.static req.path
    let st2 : CacheState := { st with static := r.cache }
    ⟨(match r.response with
      | .ok resp => resp
      | .error () => getFallbackResponse req st2.static),
     st2, (.cacheFirst, .static), r.fetches, r.awaitedNetwork⟩
  else if isAudioPath req.path then
    let r := cacheFirstStrategy net st.audio req.path
    let st2 : CacheState := { st with audio := r.cache }
    ⟨(match r.response with
      | .ok resp => resp
      | .error () => getFallbackResponse req st2.static),
     st2, (.cacheFirst, .audio), r.fetches, r.awaitedNetwork⟩
  else if isApiPath req.path then
    let r := networkFirstStrategy net st.dynamic req.path
    let st2 : CacheState := { st with dynamic := r.cache }
    ⟨(match r.response with
      | .ok resp => resp
      | .error () => getFallbackResponse req st2.static),
     st2, (.networkFirst, .dynamic), r.fetches, r.awaitedNetwork⟩
  else
    let r := staleWhileRevalidateStrategy net st.dynamic req.path
    let st2 : CacheState := { st with dynamic := r.cache }
    ⟨(match r.response with
      | .ok resp => resp
      | .error () => getFallbackResponse req st2.static),
     st2, (.staleWhileRevalidate, .dynamic), r.fetches, r.awaitedNetwork⟩

/-! ## The write path (sw.js lines 90–95, 125–145, 253–273) -/

/-- A non-GET request as the worker sees it. -/
structure WriteRequest where
  url : String
  method : String
  headers : List (String × String)
  body : String
deriving DecidableEq

/-- An entry of the `pending_requests` IndexedDB store (the Outbox):
auto-incremented id plus the serialized request. -/
structure OutboxEntry where
  id : Nat
  url : String
  method : String
  headers : List (String × String)
  body : String
  timestamp : Nat
deriving DecidableEq, Repr

/-- The key that the IndexedDB `autoIncrement` mechanism assigns to the next `add`. -/
def nextOutboxId (ob : List OutboxEntry) : Nat :=
  (ob.map (fun e => e.id)).foldr Nat.max 0 + 1

/-- `storeForBackgroundSync` (sw.js lines 253–273): serialize the
request (url, method, headers, body, timestamp `now`) and append it to
the Outbox. -/
def storeForBackgroundSync (ob : List OutboxEntry) (now : Nat)
    (req : WriteRequest) : List OutboxEntry :=
  ob ++ [⟨nextOutboxId ob, req.url, req.method, req.headers, req.body, now⟩]

/-- The synthetic acknowledgment built at sw.js lines 134–141. -/
def offlineAck : Response :=
  ⟨200, "\x7b\"success\":true,\"offline\":true,\"message\":\"Data queued for sync when online\"\x7d"⟩

/-- `handlePostRequest` (sw.js lines 125–145): try the network; on
failure queue API requests and acknowledge, otherwise rethrow. -/
def handlePostRequest (net : Option Response) (ob : List OutboxEntry)
    (now : Nat) (req : WriteRequest) :
    (Except Unit Response) × List OutboxEntry :=
  match net with
  | some r => (.ok r, ob)
  | none =>
    if isApiPath req.url then
      (.ok offlineAck, storeForBackgroundSync ob now req)
    else
      (.error (), ob)

/-- Dispatch of the fetch listener for non-GET methods (sw.js lines
90–95): only `POST` is intercepted; any other method gets no
`respondWith` call (`none`), leaving the default browser fetch. -/
def fetchEventWrite (net : Option Response) (ob : List OutboxEntry)
    (now : Nat) (req : WriteRequest) :
    Option ((Except Unit Response) × List OutboxEntry) :=
  if req.method == "POST" then some (handlePostRequest net ob now req)
  else none

/-- What the requester observes for a non-GET request together with
the Outbox afterwards: an intercepted request yields the answer of
the worker; a non-intercepted one falls through to its own browser-level
network attempt, which succeeds or fails with the network. -/
def writePathResult (net : Option Response) (ob : List OutboxEntry)
    (now : Nat) (req : WriteRequest) :
    (Except Unit Response) × List OutboxEntry :=
  match fetchEventWrite net ob now req with
  | some res => res
  | none =>
    (match net with
     | some r => .ok r
     | none => .error (), ob)

/-! ## Outbox replay (sw.js lines 324–354)

`syncPendingRequests` snapshots the `pending_requests` store with
`getAll`, then walks the snapshot in enqueue order; a replay whose
fetch resolves with a 2xx response deletes that entry (by id) from the
live store, and any other outcome — a non-2xx response or a rejected
fetch — leaves the store untouched and moves on to the next entry.
`net` maps each entry to its replay outcome (`none` = fetch rejected). -/

def replaySucceeds (net : OutboxEntry → Option Response)
    (e : OutboxEntry) : Bool :=
  match net e with
  | some r => responseOk r
  | none => false

/-- The loop body of `syncPendingRequests`: first argument is the
remaining snapshot, second the live store. -/
def replayLoop (net : OutboxEntry → Option Response) :
    List OutboxEntry → List OutboxEntry → List OutboxEntry
  | [], store => store
  | e :: rest, store =>
    match net e with
    | some r =>
      if responseOk r then
        replayLoop net rest (store.filter (fun x => x.id != e.id))
      else
        replayLoop net rest store
    | none => replayLoop net rest store

/-- `syncPendingRequests` (sw.js lines 324–354). -/
def syncPendingRequests (net : OutboxEntry → Option Response)
    (store : List OutboxEntry) : List OutboxEntry :=
  replayLoop net store store

/-! ## Activation garbage collection (sw.js lines 61–82) -/

/-- The deletion test of the activate listener: a cache name is
deleted when it differs from all three current partition names. -/
def isStaleCache (n : String) : Bool :=
  n != STATIC_CACHE && n != DYNAMIC_CACHE && n != AUDIO_CACHE

/-- The expected partition set at the current version. -/
def expectedCaches : List String := [STATIC_CACHE, DYNAMIC_CACHE, AUDIO_CACHE]

/-- The activate listener (sw.js lines 61–82): enumerate
`caches.keys()` and delete every stale name, keeping the rest. -/
def activateCleanup (existing : List String) : List String :=
  existing.filter (fun n => !(isStaleCache n))

/-! ## Crisis support trigger (sw.js lines 484–521) -/

/-- A record of the `mood_data` store: its date as a millisecond
timestamp and its mood value. -/
structure MoodRecord where
  date : Int
  value : Int
deriving DecidableEq, Repr

/-- A notification as passed to `showNotification`. -/
structure SWNotification where
  title : String
  body : String
  tag : String
  requireInteraction : Bool
deriving DecidableEq, Repr

/-- The supportive notification shown at sw.js lines 500–516. -/
def crisisSupportNotification : SWNotification :=
  ⟨"MindChat Support",
   "We noticed you might be going through a tough time. Remember, support is available.",
   "crisis-support", true⟩

/-- `checkCrisisSupport` (sw.js lines 484–521): keep mood records from
the last 3 days (72 hours) whose value is at most 2; when at least 3
remain, show the crisis-support notification. `now` is `Date.now()`
in milliseconds. -/
def checkCrisisSupport (now : Int) (moods : List MoodRecord) :
    Option SWNotification :=
  let threeDaysAgo : Int := now - 3 * 24 * 60 * 60 * 1000
  let recentLowMoods :=
    moods.filter (fun m => threeDaysAgo ≤ m.date && m.value ≤ 2)
  if 3 ≤ recentLowMoods.length then some crisisSupportNotification
  else none

/-! ## Clear-all control command (sw.js lines 549–570 and 584–592) -/

/-- Durable worker storage relevant to the clear-all command:
the names present in Cache Storage and the Outbox, which lives in
IndexedDB, a separate storage mechanism. -/
structure WorkerStorage where
  cacheNames : List String
  outbox : List OutboxEntry
deriving DecidableEq

/-- `clearAllCaches` (sw.js lines 584–592), run by the `CLEAR_CACHE`
branch of the message listener: delete every name `caches.keys()`
returns; IndexedDB is never touched. -/
def clearAllCaches (s : WorkerStorage) : WorkerStorage :=
  { s with cacheNames := [] }

/-! ## Claim theorems -/

/-- C1: every GET request is classified by the precedence
static-asset → audio → API → default: a static-asset path is handled
cache-first against the static partition; otherwise an audio path is
handled cache-first against the audio partition; otherwise an API path
(starting with `/api/`) is handled network-first against the dynamic
partition; otherwise the request is handled stale-while-revalidate
against the dynamic partition.  In particular every API GET that is
neither a static-asset nor an audio path is handled network-first. -/
theorem c1_classifier_precedence (net : Option Response) (st : CacheState)
    (req : GetRequest) :
    (isStaticAssetPath req.path = true →
      (handleGetRequest net st req).chosen = (.cacheFirst, .static)) ∧
    (isStaticAssetPath req.path = false → isAudioPath req.path = true →
      (handleGetRequest net st req).chosen = (.cacheFirst, .audio)) ∧
    (isStaticAssetPath req.path = false → isAudioPath req.path = false →
      isApiPath req.path = true →
      (handleGetRequest net st req).chosen = (.networkFirst, .dynamic)) ∧
    (isStaticAssetPath req.path = false → isAudioPath req.path = false →
      isApiPath req.path = false →
      (handleGetRequest net st req).chosen = (.staleWhileRevalidate, .dynamic)) := by
  refine ⟨fun h1 => ?_, fun h1 h2 => ?_, fun h1 h2 h3 => ?_, fun h1 h2 h3 => ?_⟩
  · simp [handleGetRequest, h1]
  · simp [handleGetRequest, h1, h2]
  · simp [handleGetRequest, h1, h2, h3]
  · simp [handleGetRequest, h1, h2, h3]

/-- C1 witness: `/api/mood-data` is neither a static-asset nor an
audio path, so it is handled network-first against the dynamic
partition. -/
theorem c1_classifier_precedence_witness :
    (handleGetRequest (some ⟨200, "ok"⟩) ⟨[], [], []⟩
        ⟨"/api/mood-data", none⟩).chosen = (.networkFirst, .dynamic) :=
  (c1_classifier_precedence (some ⟨200, "ok"⟩) ⟨[], [], []⟩
      ⟨"/api/mood-data", none⟩).2.2.1 (by decide) (by decide) (by decide)

/-- C2: cache-first returns a stored snapshot without issuing any
fetch; on a miss it issues exactly one fetch and, when that fetch
resolves, stores the response and returns it; consequently, after one
successful fetch every subsequent cache-first call for the same
fingerprint returns the stored snapshot with no network call. -/
theorem c2_cache_first (net : Option Response) (c : Cache) (u : String) :
    (∀ r, cacheMatch c u = some r →
      cacheFirstStrategy net c u = ⟨.ok r, c, 0, false⟩) ∧
    (cacheMatch c u = none → (cacheFirstStrategy net c u).fetches = 1) ∧
    (cacheMatch c u = none → ∀ r, net = some r →
      cacheFirstStrategy net c u = ⟨.ok r, cachePut c u r, 1, true⟩) ∧
    (cacheMatch c u = none → ∀ r, net = some r → ∀ net2,
      cacheFirstStrategy net2 (cacheFirstStrategy net c u).cache u
        = ⟨.ok r, (cacheFirstStrategy net c u).cache, 0, false⟩) := by
  refine ⟨fun r h => ?_, fun h => ?_, fun h r hn => ?_, fun h r hn net2 => ?_⟩
  · simp [cacheFirstStrategy, h]
  · cases net <;> simp [cacheFirstStrategy, h]
  · simp [cacheFirstStrategy, h, hn]
  · have hc : (cacheFirstStrategy net c u).cache = cachePut c u r := by
      simp [cacheFirstStrategy, h, hn]
    rw [hc]
    simp [cacheFirstStrategy, cacheMatch_cachePut]

/-- C2 witness: an uncached static asset is fetched once and stored;
the next call is served from the partition with zero fetches. -/
theorem c2_cache_first_witness :
    cacheFirstStrategy (some ⟨200, "shell"⟩) [] "/index.html"
      = ⟨.ok ⟨200, "shell"⟩, cachePut [] "/index.html" ⟨200, "shell"⟩, 1, true⟩ ∧
    cacheFirstStrategy none
        (cacheFirstStrategy (some ⟨200, "shell"⟩) [] "/index.html").cache
        "/index.html"
      = ⟨.ok ⟨200, "shell"⟩,
         (cacheFirstStrategy (some ⟨200, "shell"⟩) [] "/index.html").cache,
         0, false⟩ :=
  ⟨(c2_cache_first (some ⟨200, "shell"⟩) [] "/index.html").2.2.1 rfl _ rfl,
   (c2_cache_first (some ⟨200, "shell"⟩) [] "/index.html").2.2.2 rfl _ rfl none⟩

/-- C3: network-first returns the network response and overwrites the
partition entry when the fetch resolves; when the fetch rejects it
returns the stored snapshot, leaving the partition unchanged, and when
no snapshot exists it propagates the failure with the partition
unchanged. -/
theorem c3_network_first (net : Option Response) (c : Cache) (u : String) :
    (∀ r, net = some r →
      networkFirstStrategy net c u = ⟨.ok r, cachePut c u r, 1, true⟩ ∧
      cacheMatch (networkFirstStrategy net c u).cache u = some r) ∧
    (net = none → ∀ s, cacheMatch c u = some s →
      networkFirstStrategy net c u = ⟨.ok s, c, 1, true⟩) ∧
    (net = none → cacheMatch c u = none →
      networkFirstStrategy net c u = ⟨.error (), c, 1, true⟩) := by
  refine ⟨fun r hn => ?_, fun hn s h => ?_, fun hn h => ?_⟩
  · constructor
    · simp [networkFirstStrategy, hn]
    · simp [networkFirstStrategy, hn, cacheMatch_cachePut]
  · simp [networkFirstStrategy, hn, h]
  · simp [networkFirstStrategy, hn, h]

/-- C3 witness: with a prior snapshot stored for `/api/mood-data`, a
resolved fetch overwrites it and is returned; a rejected fetch falls
back to the snapshot with the partition unchanged. -/
theorem c3_network_first_witness :
    (networkFirstStrategy (some ⟨200, "fresh"⟩)
        [("/api/mood-data", ⟨200, "stale"⟩)] "/api/mood-data"
      = ⟨.ok ⟨200, "fresh"⟩,
         cachePut [("/api/mood-data", ⟨200, "stale"⟩)] "/api/mood-data" ⟨200, "fresh"⟩,
         1, true⟩) ∧
    (networkFirstStrategy none
        [("/api/mood-data", ⟨200, "stale"⟩)] "/api/mood-data"
      = ⟨.ok ⟨200, "stale"⟩, [("/api/mood-data", ⟨200, "stale"⟩)], 1, true⟩) :=
  ⟨((c3_network_first (some ⟨200, "fresh"⟩)
      [("/api/mood-data", ⟨200, "stale"⟩)] "/api/mood-data").1 _ rfl).1,
   (c3_network_first none
      [("/api/mood-data", ⟨200, "stale"⟩)] "/api/mood-data").2.1 rfl _ (by decide)⟩

/-- C4: stale-while-revalidate returns an existing snapshot without
waiting on the concurrently issued fetch, and the partition holds the
network result exactly when that fetch resolves; with no snapshot the
fetch is awaited and its response returned, and a rejected fetch with
no snapshot propagates the failure. -/
theorem c4_stale_while_revalidate (net : Option Response) (c : Cache)
    (u : String) :
    (∀ s, cacheMatch c u = some s →
      (staleWhileRevalidateStrategy net c u).response = .ok s ∧
      (staleWhileRevalidateStrategy net c u).awaitedNetwork = false) ∧
    (∀ r, net = some r →
      (staleWhileRevalidateStrategy net c u).cache = cachePut c u r) ∧
    (net = none → (staleWhileRevalidateStrategy net c u).cache = c) ∧
    (cacheMatch c u = none → ∀ r, net = some r →
      staleWhileRevalidateStrategy net c u = ⟨.ok r, cachePut c u r, 1, true⟩) ∧
    (cacheMatch c u = none → net = none →
      staleWhileRevalidateStrategy net c u = ⟨.error (), c, 1, true⟩) := by
  refine ⟨fun s h => ?_, fun r hn => ?_, fun hn => ?_, fun h r hn => ?_,
    fun h hn => ?_⟩
  · cases net <;> simp [staleWhileRevalidateStrategy, h]
  · cases hc : cacheMatch c u <;> simp [staleWhileRevalidateStrategy, hn, hc]
  · cases hc : cacheMatch c u <;> simp [staleWhileRevalidateStrategy, hn, hc]
  · simp [staleWhileRevalidateStrategy, h, hn]
  · simp [staleWhileRevalidateStrategy, h, hn]

/-- C4 witness: a page with a stored snapshot is answered from the
partition without waiting on the network, while the settled partition
holds the fetched result; with an empty partition the fetch is
awaited. -/
theorem c4_stale_while_revalidate_witness :
    ((staleWhileRevalidateStrategy (some ⟨200, "new"⟩)
        [("/about", ⟨200, "old"⟩)] "/about").response = .ok ⟨200, "old"⟩ ∧
     (staleWhileRevalidateStrategy (some ⟨200, "new"⟩)
        [("/about", ⟨200, "old"⟩)] "/about").awaitedNetwork = false) ∧
    (staleWhileRevalidateStrategy (some ⟨200, "new"⟩)
        [("/about", ⟨200, "old"⟩)] "/about").cache
      = cachePut [("/about", ⟨200, "old"⟩)] "/about" ⟨200, "new"⟩ ∧
    staleWhileRevalidateStrategy (some ⟨200, "new"⟩) [] "/about"
      = ⟨.ok ⟨200, "new"⟩, cachePut [] "/about" ⟨200, "new"⟩, 1, true⟩ :=
  ⟨(c4_stale_while_revalidate (some ⟨200, "new"⟩)
      [("/about", ⟨200, "old"⟩)] "/about").1 _ (by decide),
   (c4_stale_while_revalidate (some ⟨200, "new"⟩)
      [("/about", ⟨200, "old"⟩)] "/about").2.1 _ rfl,
   (c4_stale_while_revalidate (some ⟨200, "new"⟩) [] "/about").2.2.2.1
      rfl _ rfl⟩

/-- C10: a resolved fetch is stored in the partition whatever its
status code, in all three strategies; network-first thereby overwrites
a previously stored snapshot with the freshly fetched response (even
an error response) and returns it; only a rejected fetch leaves the
partition unchanged. -/
theorem c10_resolved_response_always_stored (r : Response) (c : Cache)
    (u : String) :
    (cacheMatch c u = none →
      (cacheFirstStrategy (some r) c u).cache = cachePut c u r) ∧
    ((networkFirstStrategy (some r) c u).cache = cachePut c u r ∧
     (networkFirstStrategy (some r) c u).response = .ok r) ∧
    ((staleWhileRevalidateStrategy (some r) c u).cache = cachePut c u r) ∧
    (∀ good, cacheMatch c u = some good →
      cacheMatch (networkFirstStrategy (some r) c u).cache u = some r) ∧
    ((cacheFirstStrategy none c u).cache = c ∧
     (networkFirstStrategy none c u).cache = c ∧
     (staleWhileRevalidateStrategy none c u).cache = c) := by
  refine ⟨fun h => ?_, ⟨?_, ?_⟩, ?_, fun good h => ?_, ⟨?_, ?_, ?_⟩⟩
  · simp [cacheFirstStrategy, h]
  · simp [networkFirstStrategy]
  · simp [networkFirstStrategy]
  · cases hc : cacheMatch c u <;> simp [staleWhileRevalidateStrategy, hc]
  · simp [networkFirstStrategy, cacheMatch_cachePut]
  · cases hc : cacheMatch c u <;> simp [cacheFirstStrategy, hc]
  · cases hc : cacheMatch c u <;> simp [networkFirstStrategy, hc]
  · cases hc : cacheMatch c u <;> simp [staleWhileRevalidateStrategy, hc]

/-- C10 witness: a 500 response is stored on a cache-first miss, and
network-first overwrites a stored 200 snapshot with the 500 response
and returns it. -/
theorem c10_resolved_response_always_stored_witness :
    (cacheFirstStrategy (some ⟨500, "err"⟩) [] "/api/mood-data").cache
      = cachePut [] "/api/mood-data" ⟨500, "err"⟩ ∧
    cacheMatch (networkFirstStrategy (some ⟨500, "err"⟩)
        [("/api/mood-data", ⟨200, "good"⟩)] "/api/mood-data").cache
        "/api/mood-data" = some ⟨500, "err"⟩ :=
  ⟨(c10_resolved_response_always_stored ⟨500, "err"⟩ [] "/api/mood-data").1 rfl,
   (c10_resolved_response_always_stored ⟨500, "err"⟩
      [("/api/mood-data", ⟨200, "good"⟩)] "/api/mood-data").2.2.2.1
      ⟨200, "good"⟩ (by decide)⟩

/-- The write-path claim exactly as stated: EVERY non-GET request is
attempted against the network; on success the network response is
returned unmodified; on failure an API request is appended to the
Outbox and acknowledged with the synthetic `offlineAck`, while a
non-API failure propagates the error. -/
def writePathClaim : Prop :=
  ∀ (net : Option Response) (ob : List OutboxEntry) (now : Nat)
    (req : WriteRequest), req.method ≠ "GET" →
    (∀ r, net = some r → writePathResult net ob now req = (.ok r, ob)) ∧
    (net = none → isApiPath req.url = true →
      writePathResult net ob now req
        = (.ok offlineAck, storeForBackgroundSync ob now req)) ∧
    (net = none → isApiPath req.url = false →
      writePathResult net ob now req = (.error (), ob))

/-- C5 counterexample: a PUT to `/api/mood` with the network down is
not intercepted at all — the fetch listener only dispatches GET and
POST — so nothing is queued and no synthetic acknowledgment is
produced, refuting the claim for non-GET methods other than POST. -/
theorem c5_counterexample : ¬ writePathClaim := by
  intro h
  have h2 := (h none [] 0 ⟨"/api/mood", "PUT", [], "m"⟩ (by decide)).2.1
    rfl (by decide)
  exact absurd h2 (by decide)

/-- C5 amended: every POST request is first attempted against the
network and on success the network response is returned unmodified; a
failing POST to an API path is serialized, appended to the Outbox and
acknowledged with the synthetic success `offlineAck` (status 200); a
failing POST to a non-API path propagates the error.  Other non-GET
methods are not intercepted by the worker. -/
theorem c5_write_path_post (net : Option Response) (ob : List OutboxEntry)
    (now : Nat) (req : WriteRequest) (hm : req.method = "POST") :
    (∀ r, net = some r → writePathResult net ob now req = (.ok r, ob)) ∧
    (net = none → isApiPath req.url = true →
      writePathResult net ob now req
        = (.ok offlineAck, storeForBackgroundSync ob now req)) ∧
    (net = none → isApiPath req.url = false →
      writePathResult net ob now req = (.error (), ob)) := by
  refine ⟨fun r hn => ?_, fun hn ha => ?_, fun hn ha => ?_⟩
  · simp [writePathResult, fetchEventWrite, handlePostRequest, hm, hn]
  · simp [writePathResult, fetchEventWrite, handlePostRequest, hm, hn, ha]
  · simp [writePathResult, fetchEventWrite, handlePostRequest, hm, hn, ha]

/-- C5 witness: an offline POST to `/api/mood` is acknowledged with
the synthetic success response and lands in the Outbox. -/
theorem c5_write_path_post_witness :
    writePathResult none [] 7 ⟨"/api/mood", "POST", [("content-type", "application/json")], "m"⟩
      = (.ok offlineAck,
         storeForBackgroundSync [] 7
           ⟨"/api/mood", "POST", [("content-type", "application/json")], "m"⟩) :=
  (c5_write_path_post none [] 7
      ⟨"/api/mood", "POST", [("content-type", "application/json")], "m"⟩ rfl).2.1
    rfl (by decide)

/-- C7: activation keeps exactly the existing partitions whose names
are in the current expected set and deletes every other partition; in
particular, of the stale set `mindchat-static-v0`,
`mindchat-dynamic-v0` and the current `mindchat-static-v1`, only the
latter survives activation. -/
theorem c7_activation_gc :
    (∀ (existing : List String) (n : String),
      n ∈ activateCleanup existing ↔ n ∈ existing ∧ n ∈ expectedCaches) ∧
    activateCleanup
        ["mindchat-static-v0", "mindchat-dynamic-v0", "mindchat-static-v1"]
      = ["mindchat-static-v1"] := by
  constructor
  · intro existing n
    simp only [activateCleanup, List.mem_filter, isStaleCache, expectedCaches,
      List.mem_cons, List.not_mem_nil, or_false]
    constructor
    · rintro ⟨h1, h2⟩
      refine ⟨h1, ?_⟩
      have h3 : (n = STATIC_CACHE ∨ n = DYNAMIC_CACHE) ∨ n = AUDIO_CACHE := by
        simpa [not_and_or] using h2
      tauto
    · rintro ⟨h1, h2⟩
      refine ⟨h1, ?_⟩
      have h3 : (n = STATIC_CACHE ∨ n = DYNAMIC_CACHE) ∨ n = AUDIO_CACHE := by
        tauto
      simpa [not_and_or] using h3
  · decide

/-- The clear-all claim exactly as stated: after `CLEAR_CACHE` runs
`clearAllCaches`, all cache partitions are destroyed AND the Outbox is
destroyed as well. -/
def clearCommandClaim : Prop :=
  ∀ s : WorkerStorage,
    (clearAllCaches s).cacheNames = [] ∧ (clearAllCaches s).outbox = []

/-- C9 counterexample: `clearAllCaches` only deletes Cache Storage
entries; starting from a storage whose Outbox holds one pending
request, the Outbox still holds it afterwards, refuting the claim. -/
theorem c9_counterexample : ¬ clearCommandClaim := fun h =>
  absurd (h ⟨["mindchat-static-v1"], [⟨1, "/api/mood", "POST", [], "m", 0⟩]⟩).2
    (by decide)

/-- C9 amended: after the `CLEAR_CACHE` control command completes, all
cache partitions are destroyed; the Outbox, which lives in IndexedDB,
is untouched and keeps its entries. -/
theorem c9_clear_cache_scope (s : WorkerStorage) :
    (clearAllCaches s).cacheNames = [] ∧ (clearAllCaches s).outbox = s.outbox :=
  ⟨rfl, rfl⟩

/-- Each pass of the replay loop filters the live store by the ids of
the successfully replayed snapshot entries. -/
theorem replayLoop_eq_filter (net : OutboxEntry → Option Response) :
    ∀ (pend store : List OutboxEntry),
      replayLoop net pend store =
        store.filter
          (fun x => !(pend.any (fun e => replaySucceeds net e && x.id == e.id))) := by
  intro pend
  induction pend with
  | nil => intro store; simp [replayLoop]
  | cons e rest ih =>
    intro store
    cases hne : net e with
    | none =>
      simp only [replayLoop, hne]
      rw [ih]
      refine List.filter_congr ?_
      intro x _
      simp [replaySucceeds, hne]
    | some r =>
      simp only [replayLoop, hne]
      by_cases hok : responseOk r = true
      · rw [if_pos hok, ih, List.filter_filter]
        refine List.filter_congr ?_
        intro x _
        simp [replaySucceeds, hne, hok, Bool.not_or, Bool.and_comm, bne]
      · rw [if_neg hok, ih]
        refine List.filter_congr ?_
        intro x _
        simp [replaySucceeds, hne, Bool.eq_false_iff.mpr hok]

/-- With pairwise distinct ids, replay keeps exactly the entries whose
own replay did not succeed. -/
theorem syncPendingRequests_eq_filter (net : OutboxEntry → Option Response)
    (store : List OutboxEntry)
    (h : (store.map (fun e => e.id)).Nodup) :
    syncPendingRequests net store
      = store.filter (fun e => !(replaySucceeds net e)) := by
  unfold syncPendingRequests
  rw [replayLoop_eq_filter]
  refine List.filter_congr ?_
  intro x hx
  congr 1
  cases hsx : replaySucceeds net x with
  | true =>
    exact List.any_eq_true.mpr ⟨x, hx, by simp [hsx]⟩
  | false =>
    refine List.any_eq_false.mpr ?_
    intro e he
    by_cases hid : x.id = e.id
    · have hxe : x = e := List.inj_on_of_nodup_map h hx he hid
      simp [← hxe, hsx]
    · simp [hid]

/-- The replay claim exactly as stated, for outboxes with the
auto-increment invariant (distinct ids): entries are removed exactly
on a 2xx replay, fully successful replay empties the Outbox, and a
replay failing at position `k` leaves every entry from `k` onward
still queued. -/
def outboxReplayClaim : Prop :=
  ∀ (net : OutboxEntry → Option Response) (store : List OutboxEntry),
    (store.map (fun e => e.id)).Nodup →
    (∀ e ∈ store,
      (e ∈ syncPendingRequests net store ↔ replaySucceeds net e = false)) ∧
    ((∀ e ∈ store, replaySucceeds net e = true) →
      syncPendingRequests net store = []) ∧
    (∀ k (hk : k < store.length),
      replaySucceeds net (store.get ⟨k, hk⟩) = false →
      ∀ j (hj : j < store.length), k ≤ j →
        store.get ⟨j, hj⟩ ∈ syncPendingRequests net store)

/-- Entry whose replay is answered with 400 in the C6 counterexample. -/
def cexEntry1 : OutboxEntry := ⟨1, "/api/mood", "POST", [], "a", 0⟩

/-- Entry whose replay is answered with 200 in the C6 counterexample. -/
def cexEntry2 : OutboxEntry := ⟨2, "/api/mood", "POST", [], "b", 1⟩

/-- Replay outcomes of the C6 counterexample: the first entry gets a
400 response, every other entry a 200 response. -/
def cexNet (e : OutboxEntry) : Option Response :=
  if e.id == 1 then some ⟨400, "bad"⟩ else some ⟨200, "ok"⟩

/-- C6 counterexample: with the Outbox `[cexEntry1, cexEntry2]` where
the replay of entry 1 returns 400 and that of entry 2 returns 200, the loop does
not stop at the failure — entry 2 is removed — so the claimed
"entries k..N still queued" part fails at k = 0, j = 1. -/
theorem c6_counterexample : ¬ outboxReplayClaim := by
  intro h
  have h2 := (h cexNet [cexEntry1, cexEntry2] (by decide)).2.2
    0 (by decide) (by decide) 1 (by decide) (by decide)
  exact absurd h2 (by decide)

/-- C6 amended: replay walks the Outbox in enqueue order, re-issuing
each original request; an entry is removed exactly when its replay
receives a 2xx response, and any other outcome leaves that entry (and
only that entry) queued while replay continues with the remaining
entries — so afterwards the Outbox holds exactly the entries whose
replay did not succeed, and replaying N failed writes successfully
leaves the Outbox empty. -/
theorem c6_outbox_replay (net : OutboxEntry → Option Response)
    (store : List OutboxEntry)
    (h : (store.map (fun e => e.id)).Nodup) :
    syncPendingRequests net store
      = store.filter (fun e => !(replaySucceeds net e)) ∧
    ((∀ e ∈ store, replaySucceeds net e = true) →
      syncPendingRequests net store = []) := by
  have key := syncPendingRequests_eq_filter net store h
  refine ⟨key, fun hall => ?_⟩
  rw [key]
  refine List.filter_eq_nil_iff.mpr ?_
  intro a ha
  simp [hall a ha]

/-- C6 witness: for the two-entry Outbox of the counterexample the
amended characterization evaluates to keeping exactly the failed
entry. -/
theorem c6_outbox_replay_witness :
    syncPendingRequests cexNet [cexEntry1, cexEntry2]
      = List.filter (fun e => !(replaySucceeds cexNet e))
          [cexEntry1, cexEntry2] :=
  (c6_outbox_replay cexNet [cexEntry1, cexEntry2] (by decide)).1

/-- C8: the trigger fires exactly when at least 3 of the records that
fall in the 3-day look-back window have value at most 2, the
notification it emits is the interaction-required support
notification, and on the two claimed examples — values 1, 2, 2 on the
last three days it fires, values 4, 5 on the last two days it does
not. -/
theorem c8_support_trigger (now : Int) (moods : List MoodRecord) :
    ((checkCrisisSupport now moods).isSome = true ↔
      3 ≤ ((moods.filter
              (fun m => decide (now - 3 * 24 * 60 * 60 * 1000 ≤ m.date))).filter
            (fun m => decide (m.value ≤ 2))).length) ∧
    (∀ n, checkCrisisSupport now moods = some n →
      n = crisisSupportNotification ∧ n.requireInteraction = true) ∧
    (checkCrisisSupport 259200000
        [⟨172800000, 1⟩, ⟨86400000, 2⟩, ⟨0, 2⟩]).isSome = true ∧
    (checkCrisisSupport 259200000
        [⟨172800000, 4⟩, ⟨86400000, 5⟩]).isSome = false := by
  have key : ((moods.filter
        (fun m => decide (now - 3 * 24 * 60 * 60 * 1000 ≤ m.date))).filter
          (fun m => decide (m.value ≤ 2)))
      = moods.filter
          (fun m => decide (now - 3 * 24 * 60 * 60 * 1000 ≤ m.date) &&
            decide (m.value ≤ 2)) := by
    rw [List.filter_filter]
    exact List.filter_congr fun x _ => Bool.and_comm _ _
  refine ⟨?_, ?_, ?_, ?_⟩
  · rw [key]
    simp only [checkCrisisSupport]
    split
    · next hc => exact iff_of_true rfl hc
    · next hc => exact iff_of_false (by simp) hc
  · intro n hn
    simp only [checkCrisisSupport] at hn
    split at hn
    · obtain rfl := Option.some.inj hn
      exact ⟨rfl, rfl⟩
    · exact Option.noConfusion hn
  · decide
  · decide

/-- C8 witness: at `now = 259200000` with low moods on each of the
last three days the trigger produces the interaction-required support
notification. -/
theorem c8_support_trigger_witness :
    checkCrisisSupport 259200000 [⟨172800000, 1⟩, ⟨86400000, 2⟩, ⟨0, 2⟩]
      = some crisisSupportNotification ∧
    crisisSupportNotification.requireInteraction = true :=
  ⟨by decide,
   ((c8_support_trigger 259200000 [⟨172800000, 1⟩, ⟨86400000, 2⟩, ⟨0, 2⟩]).2.1
      crisisSupportNotification (by decide)).2⟩

end MindChat
